import Mathlib

/-!
Verification of the edge-nhl session driver, fragment extractor and
aggregate merger (edge_nhl/client.py, edge_nhl/parsers.py,
edge_nhl/data_models.py) against the natural-language specification.

The Python sources are shallowly embedded: pure parsing helpers become
Lean functions over rationals and strings, the DOM queries performed
through BeautifulSoup are abstracted into a `Soup` record holding the
query results the code inspects, and Python runtime exceptions are made
explicit with `Except PyErr`.  The session driver becomes a step
function over an explicit `ClientState`, parameterised by the fragment
extractor it invokes.
-/

/-- Python runtime exception kinds that the embedded code can raise. -/
inductive PyErr
  | typeError
  | valueError
  | attributeError
  | keyError
  | indexError
deriving DecidableEq, Repr

/-- Result of a Python float: a finite value (modelled exactly as a
rational), an infinity, or nan.  The float literals of the repository
are all small decimals, so exact rationals model them faithfully. -/
inductive PyFloat
  | finite (q : ℚ)
  | inf (neg : Bool)
  | nan
deriving DecidableEq, Repr

/-- The whitespace characters stripped by Python float parsing and by
str.strip (ASCII subset, which covers every string in the repository). -/
def isPyWs (c : Char) : Bool :=
  c = ' ' || c = '\t' || c = '\n' || c = '\r' || c = '\x0b' || c = '\x0c'

/-- Strip leading and trailing whitespace from a character list. -/
def trimWs (cs : List Char) : List Char :=
  ((cs.dropWhile isPyWs).reverse.dropWhile isPyWs).reverse

/-- Model of Python str.strip with no arguments. -/
def pyStripStr (s : String) : String :=
  ⟨trimWs s.toList⟩

/-- Model of Python str.replace with a one-character pattern and an
empty replacement: removes every occurrence of the character. -/
def removeAllChar (c : Char) (s : String) : String :=
  ⟨s.toList.filter (fun a => a ≠ c)⟩

/-- Digit-run scanner for Python numeric literals, continuing from an
accumulated value and digit count.  An underscore is accepted only when
directly followed by a digit (PEP 515); any other character fails. -/
def udigitsCore : Nat → Nat → List Char → Option (Nat × Nat)
  | v, n, [] => some (v, n)
  | v, n, '_' :: c :: rest =>
      if c.isDigit then udigitsCore (v * 10 + (c.toNat - 48)) (n + 1) rest else none
  | v, n, c :: rest =>
      if c.isDigit then udigitsCore (v * 10 + (c.toNat - 48)) (n + 1) rest else none

/-- A nonempty digit run (with PEP 515 underscores) and its digit count;
fails on the empty list, a leading underscore, or any stray character. -/
def udigits : List Char → Option (Nat × Nat)
  | [] => none
  | c :: rest =>
      if c.isDigit then udigitsCore (c.toNat - 48) 1 rest else none

/-- Split a character list at the first character satisfying p; the
second component is none when no such character occurs. -/
def splitAtFirst (p : Char → Bool) : List Char → (List Char × Option (List Char))
  | [] => ([], none)
  | c :: rest =>
      if p c then ([], some rest)
      else
        let r := splitAtFirst p rest
        (c :: r.1, r.2)

/-- Exponent part of a float literal: optional sign, then digits. -/
def parseExp (cs : List Char) : Option (Bool × Nat) :=
  match cs with
  | '+' :: rest => (udigits rest).map (fun p => (false, p.1))
  | '-' :: rest => (udigits rest).map (fun p => (true, p.1))
  | rest => (udigits rest).map (fun p => (false, p.1))

/-- Decimal float literal after sign removal: integer part, optional
fractional part, optional exponent; at least one mantissa digit.  The
value is assembled with mkRat over natural-number arithmetic so that
concrete evaluations reduce inside the kernel. -/
def parseDecimal (cs : List Char) : Option ℚ :=
  let me := splitAtFirst (fun c => c = 'e' || c = 'E') cs
  let ifp := splitAtFirst (fun c => c = '.') me.1
  let iRes : Option (Nat × Nat) :=
    if ifp.1.isEmpty then some (0, 0) else udigits ifp.1
  let fRes : Option (Nat × Nat) :=
    match ifp.2 with
    | none => some (0, 0)
    | some fp => if fp.isEmpty then some (0, 0) else udigits fp
  match iRes, fRes with
  | some iv, some fv =>
      if iv.2 + fv.2 = 0 then none
      else
        let mantNum : Nat := iv.1 * 10 ^ fv.2 + fv.1
        let mantDen : Nat := 10 ^ fv.2
        match me.2 with
        | none => some (mkRat mantNum mantDen)
        | some ec =>
            match parseExp ec with
            | none => none
            | some ev =>
                if ev.1 then some (mkRat mantNum (mantDen * 10 ^ ev.2))
                else some (mkRat (mantNum * 10 ^ ev.2) mantDen)
  | _, _ => none

/-- Magnitude of a Python float literal after the optional sign:
inf, infinity and nan (case-insensitive) or a decimal literal. -/
def pyFloatMag (cs : List Char) (neg : Bool) : Option PyFloat :=
  let low := cs.map Char.toLower
  if low = ['i', 'n', 'f'] || low = ['i', 'n', 'f', 'i', 'n', 'i', 't', 'y'] then
    some (PyFloat.inf neg)
  else if low = ['n', 'a', 'n'] then some PyFloat.nan
  else (parseDecimal cs).map (fun q => PyFloat.finite (if neg then -q else q))

/-- Model of the Python builtin float applied to a string: strip
whitespace, read an optional sign, then the magnitude.  Returns none
exactly when Python raises ValueError. -/
def pyFloatOfString (s : String) : Option PyFloat :=
  match trimWs s.toList with
  | '+' :: rest => pyFloatMag rest false
  | '-' :: rest => pyFloatMag rest true
  | rest => pyFloatMag rest false

/-- parsers.convert_to_float: remove percent signs and commas, strip,
then float(); a ValueError becomes None. -/
def convert_to_float (text : String) : Option PyFloat :=
  pyFloatOfString (pyStripStr (removeAllChar ',' (removeAllChar '%' text)))

/-- parsers.safe_convert: float() on the raw text with no character
stripping; any exception becomes None. -/
def safe_convert (text : String) : Option PyFloat :=
  pyFloatOfString text

/-- JSON values, as produced by json.loads on the data-json attributes
and on inbound frames. -/
inductive Json
  | null
  | bool (b : Bool)
  | num (q : ℚ)
  | str (s : String)
  | arr (elems : List Json)
  | obj (fields : List (String × Json))

/-- Python truthiness of a JSON value. -/
def jsonTruthy : Json → Bool
  | Json.null => false
  | Json.bool b => b
  | Json.num q => q != 0
  | Json.str s => s != ""
  | Json.arr xs => !xs.isEmpty
  | Json.obj fs => !fs.isEmpty

/-- Whether a JSON value is a Python dict. -/
def Json.isObj : Json → Bool
  | Json.obj _ => true
  | _ => false

/-- Python dict.get(key, default): an AttributeError on anything that
is not a dict, since only dicts expose .get. -/
def pyDictGet : Json → String → Json → Except PyErr Json
  | Json.obj fs, k, d => Except.ok ((List.lookup k fs).getD d)
  | _, _, _ => Except.error PyErr.attributeError

/-- Whether a list of characters starts with the given needle. -/
def listLeads : List Char → List Char → Bool
  | [], _ => true
  | _ :: _, [] => false
  | a :: xs, b :: ys => a = b && listLeads xs ys

/-- Whether the needle occurs as a contiguous run inside the haystack. -/
def listInside (needle : List Char) : List Char → Bool
  | [] => needle.isEmpty
  | c :: rest => listLeads needle (c :: rest) || listInside needle rest

/-- Python "key in value": key membership on a dict, element equality
on a list, substring test on a string, a TypeError otherwise. -/
def pyContains (k : String) : Json → Except PyErr Bool
  | Json.obj fs => Except.ok (fs.any (fun p => p.1 = k))
  | Json.arr xs =>
      Except.ok (xs.any (fun x =>
        match x with
        | Json.str s => s == k
        | _ => false))
  | Json.str s => Except.ok (listInside k.toList s.toList)
  | _ => Except.error PyErr.typeError

/-- Python value[key] with a string key: lookup on a dict (KeyError
when missing), a TypeError on every other value. -/
def pySubscript : Json → String → Except PyErr Json
  | Json.obj fs, k =>
      match List.lookup k fs with
      | some v => Except.ok v
      | none => Except.error PyErr.keyError
  | _, _ => Except.error PyErr.typeError

/-- Python value[0]: first element of a list (IndexError when empty),
first character of a string, KeyError on a dict whose keys are strings,
TypeError otherwise. -/
def pySubZero : Json → Except PyErr Json
  | Json.arr [] => Except.error PyErr.indexError
  | Json.arr (x :: _) => Except.ok x
  | Json.str s =>
      match s.toList with
      | [] => Except.error PyErr.indexError
      | c :: _ => Except.ok (Json.str (String.singleton c))
  | Json.obj _ => Except.error PyErr.keyError
  | _ => Except.error PyErr.typeError

/-- Python iteration over a value: the elements of a list, the
characters of a string, the keys of a dict; TypeError otherwise. -/
def pyIter : Json → Except PyErr (List Json)
  | Json.arr xs => Except.ok xs
  | Json.str s => Except.ok (s.toList.map (fun c => Json.str (String.singleton c)))
  | Json.obj fs => Except.ok (fs.map (fun p => Json.str p.1))
  | _ => Except.error PyErr.typeError

/-- Python len(value): defined on strings, lists and dicts, a
TypeError on every other value. -/
def pyLen : Json → Except PyErr Nat
  | Json.arr xs => Except.ok xs.length
  | Json.str s => Except.ok s.length
  | Json.obj fs => Except.ok fs.length
  | _ => Except.error PyErr.typeError

/-- Python float(value) on a JSON value: numbers pass through, bools
become 0 or 1, strings are parsed (ValueError on failure), anything
else is a TypeError. -/
def pyFloatOfJson : Json → Except PyErr PyFloat
  | Json.num q => Except.ok (PyFloat.finite q)
  | Json.bool b => Except.ok (PyFloat.finite (if b then 1 else 0))
  | Json.str s =>
      match pyFloatOfString s with
      | some f => Except.ok f
      | none => Except.error PyErr.valueError
  | _ => Except.error PyErr.typeError

/-- data_models.StatRow: one line of a statistics table. -/
structure StatRow where
  stat_label : String
  player_value : Option PyFloat
  league_average : Option PyFloat
  percentile : Option PyFloat
  tooltip : Option String
deriving DecidableEq, Repr

/-- data_models.RadarChartItem.  axis_label and value_label keep the
raw JSON values the code stores in them, which need not be strings. -/
structure RadarChartItem where
  axis_label : Json
  value : PyFloat
  value_label : Json

/-- data_models.RadarChartData. -/
structure RadarChartData where
  config : Json
  data : List RadarChartItem

/-- The value held by the shot_location_section field: either table
rows from the fallback parse, or the raw chartData value taken from the
embedded JSON attribute (which the code stores without inspecting). -/
inductive SLPayload
  | rows (rs : List StatRow)
  | raw (j : Json)

/-- Python truthiness of the shot_location_section value. -/
def SLPayload.truthy : SLPayload → Bool
  | SLPayload.rows rs => !rs.isEmpty
  | SLPayload.raw j => jsonTruthy j

/-- Python len() of the shot_location_section value, as evaluated by
the debug logging in the shot-location branch. -/
def slLen : SLPayload → Except PyErr Nat
  | SLPayload.rows rs => Except.ok rs.length
  | SLPayload.raw j => pyLen j

/-- data_models.ParsedEdgeData: the aggregate record. -/
structure ParsedEdgeData where
  overview_section : List StatRow
  skating_speed_section : List StatRow
  skating_distance_section : List StatRow
  shot_speed_section : List StatRow
  shot_location_section : SLPayload
  zonetime_section : List StatRow
  radar_chart : Option RadarChartData

/-- A fresh ParsedEdgeData, with every field at its dataclass default. -/
def emptyParsed : ParsedEdgeData :=
  ⟨[], [], [], [], SLPayload.rows [], [], none⟩

/-- One table cell as the code observes it: the text produced by
get_text(strip=True), and the data-tooltip attribute of the first span
child of the cell when both exist. -/
structure Cell where
  text : String
  tooltip : Option String
deriving DecidableEq, Repr

/-- One tr element: its td and th cells in document order. -/
structure HtmlRow where
  cells : List Cell
deriving DecidableEq, Repr

/-- A table element: its tbody rows, or none when it has no tbody. -/
structure HtmlTable where
  tbody : Option (List HtmlRow)
deriving DecidableEq, Repr

/-- The DOM queries parse_html_content performs on the soup, abstracted
from BeautifulSoup.  table is select_one for table.table-hover;
zoneTable is the zone-time selector on the left column layout.  For the
two custom chart elements the outer Option is whether the element
exists, the inner Option whether it carries a data-json attribute, and
the Except the outcome of json.loads on that attribute (error when the
attribute text is not valid JSON). -/
structure Soup where
  table : Option HtmlTable
  zoneTable : Option HtmlTable
  shotChart : Option (Option (Except Unit Json))
  radarChart : Option (Option (Except Unit Json))

/-- A cell used when a guarded index would fall off the end of the
cell list; unreachable for the column counts the code passes. -/
def defaultCell : Cell :=
  ⟨"", none⟩

/-- The StatRow parse_table builds from one row with enough cells. -/
def rowToStat (cells : List Cell) (columns : Nat) (is_shot_speed : Bool) : StatRow :=
  let c1 := cells.getD 1 defaultCell
  { stat_label := (cells.getD 0 defaultCell).text
    player_value := convert_to_float c1.text
    league_average :=
      if columns = 4 then convert_to_float (cells.getD 2 defaultCell).text else none
    percentile :=
      if columns = 4 then
        (if is_shot_speed then safe_convert (cells.getD 3 defaultCell).text
         else convert_to_float (cells.getD 3 defaultCell).text)
      else none
    tooltip := c1.tooltip }

/-- parsers.parse_table: rows of the table-hover table body that have
at least `columns` cells, each turned into a StatRow. -/
def parse_table (tbl : Option HtmlTable) (columns : Nat) (is_shot_speed : Bool) :
    List StatRow :=
  match tbl with
  | none => []
  | some t =>
      match t.tbody with
      | none => []
      | some rows =>
          (rows.filter (fun r => columns ≤ r.cells.length)).map
            (fun r => rowToStat r.cells columns is_shot_speed)

/-- parsers.parse_zone_time_table: rows with at least two cells from
the zone-time table, keeping only label and player value. -/
def parse_zone_time_table (tbl : Option HtmlTable) : List StatRow :=
  match tbl with
  | none => []
  | some t =>
      match t.tbody with
      | none => []
      | some rows =>
          (rows.filter (fun r => 2 ≤ r.cells.length)).map
            (fun r =>
              { stat_label := (r.cells.getD 0 defaultCell).text
                player_value := convert_to_float (r.cells.getD 1 defaultCell).text
                league_average := none
                percentile := none
                tooltip := none })

/-- The body of the loop in parsers.parse_radar_chart: value from
item.get("value", 0) through float() with only ValueError recovered to
0.0, then valueLabel and axisLabel through item.get. -/
def radarItemOfJson (item : Json) : Except PyErr RadarChartItem :=
  match pyDictGet item "value" (Json.num 0) with
  | Except.error e => Except.error e
  | Except.ok vj =>
      match
        (match pyFloatOfJson vj with
         | Except.ok f => Except.ok f
         | Except.error PyErr.valueError => Except.ok (PyFloat.finite 0)
         | Except.error e => Except.error e) with
      | Except.error e => Except.error e
      | Except.ok value =>
          match pyDictGet item "valueLabel" (Json.str "") with
          | Except.error e => Except.error e
          | Except.ok value_label =>
              match pyDictGet item "axisLabel" (Json.str "") with
              | Except.error e => Except.error e
              | Except.ok axis_label => Except.ok ⟨axis_label, value, value_label⟩

/-- parsers.parse_radar_chart.  The radar chart element is looked up by
id overview-radarchart; a json.loads failure is recovered to an empty
dict; then the code tests "chartData" in chart_data and the truthiness
of chart_data["chartData"], walks chartData[0].get("data", []), and
builds the items. -/
def parse_radar_chart (soup : Soup) : Except PyErr (Option RadarChartData) :=
  match soup.radarChart with
  | some (some pr) =>
      let chart_data : Json :=
        match pr with
        | Except.ok j => j
        | Except.error _ => Json.obj []
      (match pyContains "chartData" chart_data with
       | Except.error e => Except.error e
       | Except.ok b =>
          if b then
            match pySubscript chart_data "chartData" with
            | Except.error e => Except.error e
            | Except.ok v =>
                if jsonTruthy v then
                  match pySubZero v with
                  | Except.error e => Except.error e
                  | Except.ok fst =>
                      match pyDictGet fst "data" (Json.arr []) with
                      | Except.error e => Except.error e
                      | Except.ok data_list =>
                          match pyIter data_list with
                          | Except.error e => Except.error e
                          | Except.ok elems =>
                              match elems.mapM radarItemOfJson with
                              | Except.error e => Except.error e
                              | Except.ok items =>
                                  match pyDictGet chart_data "config" (Json.obj []) with
                                  | Except.error e => Except.error e
                                  | Except.ok config =>
                                      Except.ok (some ⟨config, items⟩)
                else Except.ok none
          else Except.ok none)
  | _ => Except.ok none

/-- The shot-location branch: when the sl-webc-shot-chart element and
its data-json attribute exist and the JSON parses, data.get("chartData",
[]) is stored raw; a failure inside the try block (unparsable JSON, or
.get on a non-dict) falls back to 4-column table parsing, as does a
missing element or attribute. -/
def shotLocationPayload (soup : Soup) : SLPayload :=
  match soup.shotChart with
  | some (some (Except.ok (Json.obj fs))) =>
      SLPayload.raw ((List.lookup "chartData" fs).getD (Json.arr []))
  | some (some (Except.ok _)) => SLPayload.rows (parse_table soup.table 4 false)
  | some (some (Except.error _)) => SLPayload.rows (parse_table soup.table 4 false)
  | _ => SLPayload.rows (parse_table soup.table 4 false)

/-- parsers.parse_html_content: dispatch on the target string.  The
debug logging of the shot-location branch evaluates len() on whatever
was stored in shot_location_section, which raises a TypeError when the
chartData value is neither a sequence nor a mapping; the radar chart
parse can also raise, so the result is an Except. -/
def parse_html_content (soup : Soup) (target : String) : Except PyErr ParsedEdgeData :=
  if target = "#overview-section-content" then
    match parse_radar_chart soup with
    | Except.error e => Except.error e
    | Except.ok rc =>
        Except.ok { emptyParsed with
          overview_section := parse_table soup.table 4 false
          radar_chart := rc }
  else if target = "#skatingspeed-section-content" then
    Except.ok { emptyParsed with skating_speed_section := parse_table soup.table 4 false }
  else if target = "#skatingdistance-section-content" then
    Except.ok { emptyParsed with skating_distance_section := parse_table soup.table 4 false }
  else if target = "#shotspeed-section-content" then
    Except.ok { emptyParsed with shot_speed_section := parse_table soup.table 4 true }
  else if target = "#shotlocation-section-content" then
    match slLen (shotLocationPayload soup) with
    | Except.error e => Except.error e
    | Except.ok _ =>
        Except.ok { emptyParsed with shot_location_section := shotLocationPayload soup }
  else if target = "#zonetime-section-content" then
    Except.ok { emptyParsed with zonetime_section := parse_zone_time_table soup.zoneTable }
  else
    Except.ok emptyParsed

/-- parsers.merge_parsed_data: per slot, a truthy incoming value
overwrites, a falsy one leaves the existing value in place. -/
def merge_parsed_data (existing nw : ParsedEdgeData) : ParsedEdgeData :=
  { overview_section :=
      if !nw.overview_section.isEmpty then nw.overview_section else existing.overview_section
    skating_speed_section :=
      if !nw.skating_speed_section.isEmpty then nw.skating_speed_section
      else existing.skating_speed_section
    skating_distance_section :=
      if !nw.skating_distance_section.isEmpty then nw.skating_distance_section
      else existing.skating_distance_section
    shot_speed_section :=
      if !nw.shot_speed_section.isEmpty then nw.shot_speed_section
      else existing.shot_speed_section
    shot_location_section :=
      if nw.shot_location_section.truthy then nw.shot_location_section
      else existing.shot_location_section
    zonetime_section :=
      if !nw.zonetime_section.isEmpty then nw.zonetime_section else existing.zonetime_section
    radar_chart :=
      if nw.radar_chart.isSome then nw.radar_chart else existing.radar_chart }

/-- client.EdgeNHLClient.expected_targets: the six section targets the
session requires. -/
def expected_targets : List String :=
  ["#overview-section-content",
   "#skatingspeed-section-content",
   "#skatingdistance-section-content",
   "#shotspeed-section-content",
   "#shotlocation-section-content",
   "#zonetime-section-content"]

/-- The mutable state of an EdgeNHLClient instance: the aggregate, the
received-target set (as a duplicate-free list), the subsequent_sent
flag, whether this side has called ws.close(), and whether a close,
closing or error frame has ended the receive loop. -/
structure ClientState where
  parsedData : ParsedEdgeData
  receivedTargets : List String
  subsequentSent : Bool
  selfClosed : Bool
  remoteEnded : Bool

/-- The state EdgeNHLClient.__init__ leaves a fresh client in. -/
def initClient : ClientState :=
  ⟨emptyParsed, [], false, false, false⟩

/-- Python set.add on the received-target set. -/
def insertTarget (t : String) (l : List String) : List String :=
  if t ∈ l then l else t :: l

/-- Python set.issubset: every member of l1 is a member of l2. -/
def subsetTargets (l1 l2 : List String) : Bool :=
  l1.all (fun t => l2.contains t)

/-- One inbound WebSocket message as the receive loop sees it.  A text
frame carries the outcome of json.loads on its data (error when the
data is not valid JSON). -/
inductive WSMsg
  | text (frame : Except Unit Json)
  | closedFrame
  | closingFrame
  | errorFrame
  | otherFrame

/-- client.EdgeNHLClient._handle_text_message, parameterised by the
fragment extractor the driver invokes (the code calls
parse_html_content).  Non-JSON data is discarded; an envelope of a kind
other than html is ignored; an html envelope with an expected target
records the target, and when the expected set has just been completed
the driver closes the socket and returns before extracting or merging;
otherwise the extractor runs on (markup, target) and its output is
merged into the aggregate. -/
def handle_text_message (extract : String → String → ParsedEdgeData)
    (st : ClientState) (frame : Except Unit Json) : Except PyErr ClientState :=
  match frame with
  | Except.error _ => Except.ok st
  | Except.ok data =>
      match pyDictGet data "type" Json.null with
      | Except.error e => Except.error e
      | Except.ok msgType =>
          match msgType with
          | Json.str tkind =>
              if tkind = "html" then
                match pyDictGet data "html" (Json.str ""),
                      pyDictGet data "target" (Json.str "") with
                | Except.ok htmlJ, Except.ok targetJ =>
                    (match targetJ with
                     | Json.str targetRaw =>
                         let target := pyStripStr targetRaw
                         (match htmlJ with
                          | Json.str html =>
                              if target ∈ expected_targets then
                                let recvd := insertTarget target st.receivedTargets
                                if subsetTargets expected_targets recvd then
                                  Except.ok { st with
                                    receivedTargets := recvd
                                    selfClosed := true }
                                else
                                  Except.ok { st with
                                    receivedTargets := recvd
                                    parsedData :=
                                      merge_parsed_data st.parsedData (extract html target) }
                              else
                                Except.ok { st with
                                  parsedData :=
                                    merge_parsed_data st.parsedData (extract html target) }
                          | _ => Except.error PyErr.typeError)
                     | _ => Except.error PyErr.attributeError)
                | Except.error e, _ => Except.error e
                | _, Except.error e => Except.error e
              else Except.ok st
          | _ => Except.ok st

/-- The receive loop of connect_and_communicate: messages are consumed
one at a time, in order; a close, closing or error frame ends the loop;
after the driver itself has closed the socket no further message is
processed; an exception from the handler aborts the loop. -/
def runMsgs (extract : String → String → ParsedEdgeData) :
    ClientState → List WSMsg → ClientState
  | st, [] => st
  | st, m :: ms =>
      if st.selfClosed || st.remoteEnded then st
      else
        match m with
        | WSMsg.text f =>
            match handle_text_message extract st f with
            | Except.ok st1 => runMsgs extract st1 ms
            | Except.error _ => st
        | WSMsg.closedFrame => { st with remoteEnded := true }
        | WSMsg.closingFrame => { st with remoteEnded := true }
        | WSMsg.errorFrame => { st with remoteEnded := true }
        | WSMsg.otherFrame => runMsgs extract st ms

/-- The client state at the point connect_and_communicate enters its
receive loop: the handshake and the batch of requests have been sent
and subsequent_sent is set.  No other field is touched: in particular
the received-target set is not reset. -/
def sessionStartState (st : ClientState) : ClientState :=
  { st with subsequentSent := true }

/-- client.EdgeNHLClient.connect_and_communicate on a given inbound
message sequence, parameterised by the extractor. -/
def connect_and_communicate (extract : String → String → ParsedEdgeData)
    (st : ClientState) (msgs : List WSMsg) : ClientState :=
  runMsgs extract (sessionStartState st) msgs

/-- Python truthiness of a whole ParsedEdgeData seen as a section
payload: some slot holds content. -/
def payloadTruthy (p : ParsedEdgeData) : Bool :=
  !p.overview_section.isEmpty || !p.skating_speed_section.isEmpty
    || !p.skating_distance_section.isEmpty || !p.shot_speed_section.isEmpty
    || p.shot_location_section.truthy || !p.zonetime_section.isEmpty
    || p.radar_chart.isSome

/-- The condition under which the shot-location branch falls back to
table parsing: the chart element or its data-json attribute is missing,
the attribute is not valid JSON, or the parsed JSON is not a dict (so
that .get raises inside the try block). -/
def slFallback : Option (Option (Except Unit Json)) → Prop
  | some (some (Except.ok j)) => j.isObj = false
  | _ => True

/-- A one-row zone-time result used as a concrete extractor output. -/
def zoneRow : StatRow :=
  ⟨"Offensive Zone", some (PyFloat.finite (mkRat 498 10)), none, none, none⟩

/-- A section payload holding only that zone-time row. -/
def zonePayload : ParsedEdgeData :=
  { emptyParsed with zonetime_section := [zoneRow] }

/-- A concrete extractor returning the zone-time payload for every
fragment. -/
def extractZone : String → String → ParsedEdgeData :=
  fun _ _ => zonePayload

/-- A concrete extractor returning the empty payload. -/
def extractEmptyPayload : String → String → ParsedEdgeData :=
  fun _ _ => emptyParsed

/-- A client state in which five of the six expected targets have been
received and the zone-time target is still missing. -/
def stFive : ClientState :=
  ⟨emptyParsed,
   ["#overview-section-content", "#skatingspeed-section-content",
    "#skatingdistance-section-content", "#shotspeed-section-content",
    "#shotlocation-section-content"],
   true, false, false⟩

/-- A parsed html envelope carrying the zone-time target. -/
def envZone : Json :=
  Json.obj [("type", Json.str "html"),
            ("target", Json.str "#zonetime-section-content"),
            ("html", Json.str "<div>zone</div>")]

/-- A parsed html envelope carrying the overview target. -/
def envOverview : Json :=
  Json.obj [("type", Json.str "html"),
            ("target", Json.str "#overview-section-content"),
            ("html", Json.str "<div></div>")]

/-- A soup whose shot-chart data-json parses to a dict whose chartData
value is the number 5: the branch stores 5 and the debug logging then
calls len(5). -/
def soupBadSL : Soup :=
  ⟨none, none, some (some (Except.ok (Json.obj [("chartData", Json.num 5)]))), none⟩

/-- A soup whose radar-chart data-json parses to the bare number 5: the
code then evaluates the membership test "chartData" in 5. -/
def soupBadRadar : Soup :=
  ⟨none, none, none, some (some (Except.ok (Json.num 5)))⟩

/-- A soup with a well-formed shot-chart payload holding one chart
data point. -/
def soupChartOk : Soup :=
  ⟨none, none, some (some (Except.ok (Json.obj [("chartData", Json.arr [Json.num 1])]))), none⟩

theorem mem_insertTarget (a t : String) (l : List String) (h : a ∈ l) :
    a ∈ insertTarget t l := by
  unfold insertTarget
  split
  · exact h
  · exact List.mem_cons_of_mem t h

theorem handle_cases (extract : String → String → ParsedEdgeData)
    (st st1 : ClientState) (frame : Except Unit Json)
    (h : handle_text_message extract st frame = Except.ok st1) :
    (st1.receivedTargets = st.receivedTargets ∧ st1.selfClosed = st.selfClosed
      ∧ st1.remoteEnded = st.remoteEnded)
    ∨ (∃ t, t ∈ expected_targets
        ∧ st1.receivedTargets = insertTarget t st.receivedTargets
        ∧ st1.remoteEnded = st.remoteEnded
        ∧ ((subsetTargets expected_targets st1.receivedTargets = true ∧ st1.selfClosed = true)
           ∨ (subsetTargets expected_targets st1.receivedTargets = false
              ∧ st1.selfClosed = st.selfClosed))) := by
  cases frame with
  | error u =>
      injection h with h
      subst h
      exact Or.inl ⟨rfl, rfl, rfl⟩
  | ok data =>
      simp only [handle_text_message] at h
      split at h
      · exact Except.noConfusion h
      · split at h
        · split at h
          · split at h
            · split at h
              · split at h
                · split at h
                  · rename_i hmem
                    split at h
                    · rename_i hsub
                      injection h with h
                      subst h
                      exact Or.inr ⟨_, hmem, rfl, rfl, Or.inl ⟨hsub, rfl⟩⟩
                    · rename_i hsub
                      injection h with h
                      subst h
                      exact Or.inr ⟨_, hmem, rfl, rfl,
                        Or.inr ⟨Bool.eq_false_iff.mpr hsub, rfl⟩⟩
                  · injection h with h
                    subst h
                    exact Or.inl ⟨rfl, rfl, rfl⟩
                · exact Except.noConfusion h
              · exact Except.noConfusion h
            · exact Except.noConfusion h
            · exact Except.noConfusion h
          · injection h with h
            subst h
            exact Or.inl ⟨rfl, rfl, rfl⟩
        · injection h with h
          subst h
          exact Or.inl ⟨rfl, rfl, rfl⟩

theorem handle_invariant (extract : String → String → ParsedEdgeData)
    (st st1 : ClientState) (frame : Except Unit Json)
    (h : handle_text_message extract st frame = Except.ok st1)
    (inv : subsetTargets expected_targets st.receivedTargets = true → st.selfClosed = true) :
    subsetTargets expected_targets st1.receivedTargets = true → st1.selfClosed = true := by
  intro hs1
  rcases handle_cases extract st st1 frame h with ⟨hr, hc, _⟩ | ⟨t, _, _, _, hcase⟩
  · rw [hc]
    exact inv (hr ▸ hs1)
  · rcases hcase with ⟨_, hc⟩ | ⟨hf, _⟩
    · exact hc
    · rw [hf] at hs1
      exact Bool.noConfusion hs1

theorem runMsgs_close (extract : String → String → ParsedEdgeData)
    (msgs : List WSMsg) :
    ∀ st : ClientState,
      (subsetTargets expected_targets st.receivedTargets = true → st.selfClosed = true) →
      subsetTargets expected_targets (runMsgs extract st msgs).receivedTargets = true →
      (runMsgs extract st msgs).selfClosed = true := by
  induction msgs with
  | nil => intro st inv; exact inv
  | cons m ms ih =>
      intro st inv
      simp only [runMsgs]
      split
      · exact inv
      · cases m with
        | text f =>
            cases hh : handle_text_message extract st f with
            | ok st1 =>
                simp only [hh]
                exact ih st1 (handle_invariant extract st st1 f hh inv)
            | error e =>
                simp only [hh]
                exact inv
        | closedFrame => exact inv
        | closingFrame => exact inv
        | errorFrame => exact inv
        | otherFrame => exact ih st inv

theorem handle_received_mono (extract : String → String → ParsedEdgeData)
    (st st1 : ClientState) (frame : Except Unit Json)
    (h : handle_text_message extract st frame = Except.ok st1)
    (t : String) (ht : t ∈ st.receivedTargets) : t ∈ st1.receivedTargets := by
  rcases handle_cases extract st st1 frame h with ⟨hr, _, _⟩ | ⟨u, _, hr, _, _⟩
  · rw [hr]; exact ht
  · rw [hr]; exact mem_insertTarget t u st.receivedTargets ht

theorem runMsgs_received_mono (extract : String → String → ParsedEdgeData)
    (msgs : List WSMsg) :
    ∀ (st : ClientState) (t : String), t ∈ st.receivedTargets →
      t ∈ (runMsgs extract st msgs).receivedTargets := by
  induction msgs with
  | nil => intro st t ht; exact ht
  | cons m ms ih =>
      intro st t ht
      simp only [runMsgs]
      split
      · exact ht
      · cases m with
        | text f =>
            cases hh : handle_text_message extract st f with
            | ok st1 =>
                simp only [hh]
                exact ih st1 t (handle_received_mono extract st st1 f hh t ht)
            | error e =>
                simp only [hh]
                exact ht
        | closedFrame => exact ht
        | closingFrame => exact ht
        | errorFrame => exact ht
        | otherFrame => exact ih st t ht

/-- C1: the claim states that every html envelope with an expected
target is recorded, extracted and merged, including the frame whose
target completes the expected set.  On the code, the completing frame
is recorded and the socket is closed, but the handler returns before
invoking the extractor or the merger: starting from a state with five
targets received, the zone-time frame leaves the aggregate untouched
even though the extractor output for it is non-empty and merging it
would have populated the zone-time slot. -/
theorem completing_frame_not_merged :
    handle_text_message extractZone stFive (Except.ok envZone) =
      Except.ok ⟨emptyParsed, "#zonetime-section-content" :: stFive.receivedTargets,
        true, true, false⟩
    ∧ (extractZone "<div>zone</div>" "#zonetime-section-content").zonetime_section ≠ []
    ∧ (merge_parsed_data emptyParsed
        (extractZone "<div>zone</div>" "#zonetime-section-content")).zonetime_section ≠ [] := by
  refine ⟨rfl, ?_, ?_⟩ <;> decide

/-- C2: when a handled message makes the received-target set a superset
of the expected set, the driver sets its self-closed flag during that
very handling step; and over any whole session started from a fresh
client, a complete received set implies the driver closed the socket
itself. -/
theorem close_on_completion :
    (∀ (extract : String → String → ParsedEdgeData) (st st1 : ClientState)
        (frame : Except Unit Json),
        handle_text_message extract st frame = Except.ok st1 →
        subsetTargets expected_targets st1.receivedTargets = true →
        subsetTargets expected_targets st.receivedTargets = false →
        st1.selfClosed = true)
    ∧ (∀ (extract : String → String → ParsedEdgeData) (msgs : List WSMsg),
        subsetTargets expected_targets
          (connect_and_communicate extract initClient msgs).receivedTargets = true →
        (connect_and_communicate extract initClient msgs).selfClosed = true) := by
  constructor
  · intro extract st st1 frame h hs1 hs0
    rcases handle_cases extract st st1 frame h with ⟨hr, _, _⟩ | ⟨t, _, _, _, hcase⟩
    · rw [hr] at hs1
      rw [hs1] at hs0
      exact Bool.noConfusion hs0
    · rcases hcase with ⟨_, hc⟩ | ⟨hf, _⟩
      · exact hc
      · rw [hf] at hs1
        exact Bool.noConfusion hs1
  · intro extract msgs
    exact runMsgs_close extract msgs (sessionStartState initClient)
      (fun hs => Bool.noConfusion hs)

theorem close_on_completion_w :
    (⟨emptyParsed, "#zonetime-section-content" :: stFive.receivedTargets,
      true, true, false⟩ : ClientState).selfClosed = true :=
  close_on_completion.1 extractZone stFive _ (Except.ok envZone) rfl (by decide) (by decide)

/-- C3, counterexample: after one session on a fresh client has
received the overview target, a second session on the same client
starts (at the point the receive loop is entered) with a non-empty
received-target set, refuting the claim that every session run begins
with a freshly created empty set. -/
theorem second_session_not_fresh :
    (sessionStartState (connect_and_communicate extractEmptyPayload initClient
        [WSMsg.text (Except.ok envOverview)])).receivedTargets
      = ["#overview-section-content"]
    ∧ (sessionStartState (connect_and_communicate extractEmptyPayload initClient
        [WSMsg.text (Except.ok envOverview)])).receivedTargets ≠ [] := by
  refine ⟨rfl, ?_⟩
  decide

/-- C3, amended: the expected and received target sets are
client-scoped, not session-scoped.  A fresh client starts with an empty
received set, connect_and_communicate does not reset it on entry, and a
session only ever grows it, so a second session on the same client
retains every target received earlier. -/
theorem targets_client_scoped :
    initClient.receivedTargets = []
    ∧ (∀ st : ClientState, (sessionStartState st).receivedTargets = st.receivedTargets)
    ∧ (∀ (extract : String → String → ParsedEdgeData) (st : ClientState)
        (msgs : List WSMsg) (t : String),
        t ∈ st.receivedTargets →
        t ∈ (connect_and_communicate extract st msgs).receivedTargets) :=
  ⟨rfl, fun _ => rfl,
   fun extract st msgs t ht => runMsgs_received_mono extract msgs (sessionStartState st) t ht⟩

theorem targets_client_scoped_w :
    "#overview-section-content" ∈
      (connect_and_communicate extractEmptyPayload
        ⟨emptyParsed, ["#overview-section-content"], true, false, false⟩ []).receivedTargets :=
  targets_client_scoped.2.2 extractEmptyPayload
    ⟨emptyParsed, ["#overview-section-content"], true, false, false⟩ [] _
    (List.mem_singleton.mpr rfl)

/-- C4: for every aggregate and every section payload, an empty slot of
the payload (empty row list, falsy shot-location value, absent chart)
leaves the corresponding slot of the aggregate unchanged under merge. -/
theorem merge_preserves_nonempty (a s : ParsedEdgeData) :
    (s.overview_section = [] →
      (merge_parsed_data a s).overview_section = a.overview_section)
    ∧ (s.skating_speed_section = [] →
      (merge_parsed_data a s).skating_speed_section = a.skating_speed_section)
    ∧ (s.skating_distance_section = [] →
      (merge_parsed_data a s).skating_distance_section = a.skating_distance_section)
    ∧ (s.shot_speed_section = [] →
      (merge_parsed_data a s).shot_speed_section = a.shot_speed_section)
    ∧ (s.shot_location_section.truthy = false →
      (merge_parsed_data a s).shot_location_section = a.shot_location_section)
    ∧ (s.zonetime_section = [] →
      (merge_parsed_data a s).zonetime_section = a.zonetime_section)
    ∧ (s.radar_chart = none →
      (merge_parsed_data a s).radar_chart = a.radar_chart) := by
  refine ⟨?_, ?_, ?_, ?_, ?_, ?_, ?_⟩ <;> intro h <;> simp [merge_parsed_data, h]

theorem merge_preserves_nonempty_w :
    (merge_parsed_data zonePayload emptyParsed).overview_section = zonePayload.overview_section
    ∧ (merge_parsed_data zonePayload emptyParsed).skating_speed_section
        = zonePayload.skating_speed_section
    ∧ (merge_parsed_data zonePayload emptyParsed).skating_distance_section
        = zonePayload.skating_distance_section
    ∧ (merge_parsed_data zonePayload emptyParsed).shot_speed_section
        = zonePayload.shot_speed_section
    ∧ (merge_parsed_data zonePayload emptyParsed).shot_location_section
        = zonePayload.shot_location_section
    ∧ (merge_parsed_data zonePayload emptyParsed).zonetime_section
        = zonePayload.zonetime_section
    ∧ (merge_parsed_data zonePayload emptyParsed).radar_chart = zonePayload.radar_chart :=
  ⟨(merge_preserves_nonempty zonePayload emptyParsed).1 rfl,
   (merge_preserves_nonempty zonePayload emptyParsed).2.1 rfl,
   (merge_preserves_nonempty zonePayload emptyParsed).2.2.1 rfl,
   (merge_preserves_nonempty zonePayload emptyParsed).2.2.2.1 rfl,
   (merge_preserves_nonempty zonePayload emptyParsed).2.2.2.2.1 rfl,
   (merge_preserves_nonempty zonePayload emptyParsed).2.2.2.2.2.1 rfl,
   (merge_preserves_nonempty zonePayload emptyParsed).2.2.2.2.2.2 rfl⟩

/-- C5: merging the same non-empty section payload twice in succession
yields the same aggregate as merging it once. -/
theorem merge_idempotent (a s : ParsedEdgeData) (_h : payloadTruthy s = true) :
    merge_parsed_data (merge_parsed_data a s) s = merge_parsed_data a s := by
  simp only [merge_parsed_data, ParsedEdgeData.mk.injEq]
  refine ⟨?_, ?_, ?_, ?_, ?_, ?_, ?_⟩ <;> split <;> simp_all

theorem merge_idempotent_w :
    merge_parsed_data (merge_parsed_data emptyParsed zonePayload) zonePayload
      = merge_parsed_data emptyParsed zonePayload :=
  merge_idempotent emptyParsed zonePayload (by decide)

/-- C6: convert_to_float strips percent signs and thousands separators
before parsing, 22.91 and 1,234 and 80 percent parse to the expected
values, and the empty string or text that remains non-numeric after the
stripping yields none, never zero and never an exception. -/
theorem convert_to_float_spec :
    convert_to_float "22.91" = some (PyFloat.finite (22.91 : ℚ))
    ∧ convert_to_float "1,234" = some (PyFloat.finite 1234)
    ∧ convert_to_float "80%" = some (PyFloat.finite 80)
    ∧ convert_to_float "" = none
    ∧ convert_to_float "N/A" = none
    ∧ (∀ s : String,
        pyFloatOfString (pyStripStr (removeAllChar ',' (removeAllChar '%' s))) = none →
        convert_to_float s = none) := by
  refine ⟨?_, by decide, by decide, by decide, by decide, fun s h => h⟩
  rw [show (22.91 : ℚ) = mkRat 2291 100 from by norm_num [Rat.mkRat_eq_div]]
  decide

theorem convert_to_float_spec_w : convert_to_float "abc%" = none :=
  convert_to_float_spec.2.2.2.2.2 "abc%" (by decide)

/-- C7: in a 4-column table row the shot-speed parse sends the 4th
column through safe_convert, which does not strip percent signs or
commas (so such text yields none), while the generic parse sends it
through convert_to_float, which does strip them; the strict parse still
accepts a plain 84. -/
theorem shot_speed_percentile_strict :
    safe_convert "84" = some (PyFloat.finite 84)
    ∧ safe_convert "80%" = none
    ∧ safe_convert "1,234" = none
    ∧ convert_to_float "80%" = some (PyFloat.finite 80)
    ∧ convert_to_float "1,234" = some (PyFloat.finite 1234)
    ∧ (∀ c0 c1 c2 c3 : Cell,
        parse_table (some ⟨some [⟨[c0, c1, c2, c3]⟩]⟩) 4 true
          = [⟨c0.text, convert_to_float c1.text, convert_to_float c2.text,
              safe_convert c3.text, c1.tooltip⟩]
        ∧ parse_table (some ⟨some [⟨[c0, c1, c2, c3]⟩]⟩) 4 false
          = [⟨c0.text, convert_to_float c1.text, convert_to_float c2.text,
              convert_to_float c3.text, c1.tooltip⟩]) := by
  refine ⟨by decide, by decide, by decide, by decide, by decide, fun c0 c1 c2 c3 => ⟨?_, ?_⟩⟩
  · rfl
  · rfl

/-- C8: the claim states the fragment extractor never raises.  On the
code it can: a shot-chart attribute whose chartData value is the number
5 is stored and the debug logging then evaluates len(5), a TypeError;
and a radar-chart attribute that parses to the bare number 5 reaches
the membership test "chartData" in 5, also a TypeError.  Both propagate
out of parse_html_content. -/
theorem extractor_can_raise :
    parse_html_content soupBadSL "#shotlocation-section-content"
      = Except.error PyErr.typeError
    ∧ parse_html_content soupBadRadar "#overview-section-content"
      = Except.error PyErr.typeError :=
  ⟨rfl, rfl⟩

/-- C9: for the shot-location target, a present and parsable chart
attribute whose payload is a dict has its chartData value stored as-is
(defaulting to an empty list), table parsing is used exactly when the
element or attribute is missing, the attribute is unparsable, or the
payload is not a dict, and whenever the stored value supports len() the
extractor returns a payload holding it in the shot-location slot. -/
theorem shot_location_prefers_chart :
    (∀ (soup : Soup) (fs : List (String × Json)),
        soup.shotChart = some (some (Except.ok (Json.obj fs))) →
        shotLocationPayload soup
          = SLPayload.raw ((List.lookup "chartData" fs).getD (Json.arr [])))
    ∧ (∀ soup : Soup, slFallback soup.shotChart →
        shotLocationPayload soup = SLPayload.rows (parse_table soup.table 4 false))
    ∧ (∀ (soup : Soup) (n : Nat),
        slLen (shotLocationPayload soup) = Except.ok n →
        parse_html_content soup "#shotlocation-section-content"
          = Except.ok { emptyParsed with
              shot_location_section := shotLocationPayload soup }) := by
  refine ⟨?_, ?_, ?_⟩
  · intro soup fs h
    unfold shotLocationPayload
    rw [h]
  · intro soup h
    unfold shotLocationPayload
    rcases hsc : soup.shotChart with _ | oel
    · rfl
    · rcases oel with _ | pr
      · rfl
      · rcases pr with u | j
        · rfl
        · rw [hsc] at h
          cases j <;> simp_all [slFallback, Json.isObj]
  · intro soup n h
    have hred : parse_html_content soup "#shotlocation-section-content"
        = (match slLen (shotLocationPayload soup) with
           | Except.error e => Except.error e
           | Except.ok _ =>
               Except.ok { emptyParsed with
                 shot_location_section := shotLocationPayload soup }) := rfl
    rw [hred, h]

theorem shot_location_prefers_chart_w :
    parse_html_content soupChartOk "#shotlocation-section-content"
      = Except.ok { emptyParsed with
          shot_location_section := shotLocationPayload soupChartOk } :=
  shot_location_prefers_chart.2.2 soupChartOk 1 rfl

/-- C10: whenever extraction succeeds, every slot other than the ones
belonging to the handled target is left at its empty default: the radar
chart can only come from the overview target, each section list only
from its own target, and an unrecognized target leaves everything
empty. -/
theorem sections_scoped_by_target :
    ∀ (soup : Soup) (target : String) (p : ParsedEdgeData),
      parse_html_content soup target = Except.ok p →
      (target ≠ "#overview-section-content" →
        p.overview_section = [] ∧ p.radar_chart = none)
      ∧ (target ≠ "#skatingspeed-section-content" → p.skating_speed_section = [])
      ∧ (target ≠ "#skatingdistance-section-content" → p.skating_distance_section = [])
      ∧ (target ≠ "#shotspeed-section-content" → p.shot_speed_section = [])
      ∧ (target ≠ "#shotlocation-section-content" →
          p.shot_location_section = SLPayload.rows [])
      ∧ (target ≠ "#zonetime-section-content" → p.zonetime_section = []) := by
  intro soup target p h
  simp only [parse_html_content] at h
  split_ifs at h with h1 h2 h3 h4 h5 h6
  · split at h
    · exact Except.noConfusion h
    · injection h with h
      subst h
      exact ⟨fun hne => absurd h1 hne, fun _ => rfl, fun _ => rfl, fun _ => rfl,
        fun _ => rfl, fun _ => rfl⟩
  · injection h with h
    subst h
    exact ⟨fun _ => ⟨rfl, rfl⟩, fun hne => absurd h2 hne, fun _ => rfl, fun _ => rfl,
      fun _ => rfl, fun _ => rfl⟩
  · injection h with h
    subst h
    exact ⟨fun _ => ⟨rfl, rfl⟩, fun _ => rfl, fun hne => absurd h3 hne, fun _ => rfl,
      fun _ => rfl, fun _ => rfl⟩
  · injection h with h
    subst h
    exact ⟨fun _ => ⟨rfl, rfl⟩, fun _ => rfl, fun _ => rfl, fun hne => absurd h4 hne,
      fun _ => rfl, fun _ => rfl⟩
  · split at h
    · exact Except.noConfusion h
    · injection h with h
      subst h
      exact ⟨fun _ => ⟨rfl, rfl⟩, fun _ => rfl, fun _ => rfl, fun _ => rfl,
        fun hne => absurd h5 hne, fun _ => rfl⟩
  · injection h with h
    subst h
    exact ⟨fun _ => ⟨rfl, rfl⟩, fun _ => rfl, fun _ => rfl, fun _ => rfl,
      fun _ => rfl, fun hne => absurd h6 hne⟩
  · injection h with h
    subst h
    exact ⟨fun _ => ⟨rfl, rfl⟩, fun _ => rfl, fun _ => rfl, fun _ => rfl,
      fun _ => rfl, fun _ => rfl⟩

theorem sections_scoped_by_target_w :
    emptyParsed.overview_section = [] ∧ emptyParsed.radar_chart = none :=
  (sections_scoped_by_target ⟨none, none, none, none⟩ "#profile-playercard" emptyParsed rfl).1
    (by decide)
